import Mathlib

/-!
Shallow embedding of the AJ Insta Heal appointment-booking server
(`server/routes.ts`, `server/storage.ts`, `shared/schema.ts`) and proofs
about its availability computation and booking mutation operations.

Modelling conventions:
* Wire dates `YYYY-MM-DD` are represented by their numeric fields
  (`YMD`); equality of well-formed date strings coincides with equality
  of the triples.
* Wire times `HH:mm` are represented as minutes since midnight.  The
  server compares zero-padded `HH:mm` strings with `===`, `>=` and `<`;
  on such strings lexicographic comparison agrees with the numeric
  order of the corresponding minute values, so `Nat` equality and order
  are a faithful translation.
* Each drizzle query is translated to the list operation it performs on
  the table contents; an `UPDATE ... RETURNING` returns the first
  updated row, matching the `const [updated] = ...` destructuring.
* Request handlers are modelled as functions from the database state
  and the (already shape-validated) request fields to a response and
  the new database state.  Best-effort side effects (email, Google
  Calendar) never touch the database state and are not modelled.
-/

namespace AjInstaHeal

/-- A calendar date, the numeric reading of the `YYYY-MM-DD` wire string. -/
structure YMD where
  year : Nat
  month : Nat
  day : Nat
deriving DecidableEq, Repr

/-- Day of week of a Gregorian date, numbered like JavaScript
`Date.getDay()`: 0 = Sunday, ..., 6 = Saturday.  The route obtains this
via `parse(date, "yyyy-MM-dd", ...).getDay()`; here it is computed with
Zeller's congruence. -/
def dayOfWeek (d : YMD) : Nat :=
  let y := if d.month ≤ 2 then d.year - 1 else d.year
  let m := if d.month ≤ 2 then d.month + 12 else d.month
  let K := y % 100
  let J := y / 100
  let h := (d.day + 13 * (m + 1) / 5 + K + K / 4 + J / 4 + 5 * J) % 7
  (h + 6) % 7

/-- Row of the `services` table (`shared/schema.ts`). -/
structure Service where
  id : Nat
  name : String
  duration : Nat
  description : String
  price : String
deriving DecidableEq, Repr

/-- Row of the `bookings` table (`shared/schema.ts`).  `time` is in
minutes since midnight; `status` is the raw string column
(`"confirmed"` / `"cancelled"`). -/
structure Booking where
  id : Nat
  bookingId : String
  serviceId : Nat
  date : YMD
  time : Nat
  customerName : String
  customerEmail : String
  customerPhone : String
  comments : Option String
  status : String
  token : String
deriving DecidableEq, Repr

/-- Row of the `blocked_dates` table (`shared/schema.ts`): `none` start
and end time means a full-day block, both present means a timed block. -/
structure BlockedDate where
  id : Nat
  date : YMD
  startTime : Option Nat
  endTime : Option Nat
  reason : Option String
deriving DecidableEq, Repr

/-- The persistent state the booking engine reads and writes: the
`services`, `bookings` and `blocked_dates` tables. -/
structure DB where
  services : List Service
  bookings : List Booking
  blockedDates : List BlockedDate
deriving DecidableEq, Repr

/-- `DatabaseStorage.getService`: `SELECT ... WHERE services.id = id`,
destructured to the first row. -/
def getService (db : DB) (id : Nat) : Option Service :=
  db.services.find? (fun s => s.id == id)

/-- `DatabaseStorage.getBookingsByDate`: `SELECT ... WHERE bookings.date = date`. -/
def getBookingsByDate (db : DB) (date : YMD) : List Booking :=
  db.bookings.filter (fun b => b.date == date)

/-- `DatabaseStorage.getBookingById`. -/
def getBookingById (db : DB) (id : Nat) : Option Booking :=
  db.bookings.find? (fun b => b.id == id)

/-- `DatabaseStorage.getBookingByBookingId`. -/
def getBookingByBookingId (db : DB) (bookingId : String) : Option Booking :=
  db.bookings.find? (fun b => b.bookingId == bookingId)

/-- `DatabaseStorage.isDateBlocked` (`server/storage.ts`).  The source
builds the drizzle condition
`and(eq(blockedDates.date, date), blockedDates.startTime === null, blockedDates.endTime === null)`.
`blockedDates.startTime` is a column object, never the JS value `null`,
so each `=== null` evaluates to the JS constant `false` before the query
is built; drizzle binds the two booleans as parameters, producing
`WHERE date = $1 AND $2 AND $3` with `$2 = $3 = false`.  The row filter
is therefore `date matches AND false AND false`, and the function can
never return `true`, although its own comment says it should return
`true` exactly when the entire day is blocked. -/
def isDateBlocked (db : DB) (date : YMD) : Bool :=
  db.blockedDates.any (fun b => b.date == date && false && false)

/-- `DatabaseStorage.cancelBooking`: `UPDATE bookings SET status = 'cancelled'
WHERE id = id AND customer_email = email RETURNING *` (exact, case-sensitive
SQL string equality on the email), destructured to the first updated row.
Returns the first matching row after the update together with the new table
contents. -/
def cancelBooking (db : DB) (id : Nat) (email : String) : Option Booking × DB :=
  let hits := fun (b : Booking) => b.id == id && b.customerEmail == email
  let updated := db.bookings.map
    (fun b => if hits b then { b with status := "cancelled" } else b)
  ((db.bookings.find? hits).map (fun b => { b with status := "cancelled" }),
   { db with bookings := updated })

/-- `DatabaseStorage.rescheduleBooking`: `UPDATE bookings SET date = newDate,
time = newTime WHERE id = id AND customer_email = email RETURNING *`. -/
def rescheduleBooking (db : DB) (id : Nat) (email : String)
    (newDate : YMD) (newTime : Nat) : Option Booking × DB :=
  let hits := fun (b : Booking) => b.id == id && b.customerEmail == email
  let updated := db.bookings.map
    (fun b => if hits b then { b with date := newDate, time := newTime } else b)
  ((db.bookings.find? hits).map (fun b => { b with date := newDate, time := newTime }),
   { db with bookings := updated })

/-- Working hours of the availability route (`server/routes.ts`):
Saturday (6) 16-18, Sunday (0) 8-10, Monday-Friday 16-18; returned as
`(startHour, endHour)`. -/
def windowHours (dow : Nat) : Nat × Nat :=
  if dow == 6 then (16, 18)
  else if dow == 0 then (8, 10)
  else (16, 18)

/-- Start of the working window of a date, in minutes since midnight. -/
def windowStartMin (d : YMD) : Nat := (windowHours (dayOfWeek d)).1 * 60

/-- End of the working window of a date, in minutes since midnight. -/
def windowEndMin (d : YMD) : Nat := (windowHours (dayOfWeek d)).2 * 60

/-- One entry of the availability response: a time (minutes since
midnight, the `HH:mm` string on the wire) and its availability flag. -/
structure Slot where
  time : Nat
  available : Bool
deriving DecidableEq, Repr

/-- The `isTaken` check of the availability loop: some booking of the
requested service is confirmed at this time (the source's early-return
chain `status !== "confirmed" → false`, `serviceId !== serviceId →
false`, `booking.time === timeString`). -/
def slotTaken (existing : List Booking) (serviceId : Nat) (t : Nat) : Bool :=
  existing.any (fun b =>
    b.status == "confirmed" && b.serviceId == serviceId && b.time == t)

/-- Whether a single blocked range covers time `t`:
`block.startTime && block.endTime && t >= startTime && t < endTime`. -/
def blockCovers (blk : BlockedDate) (t : Nat) : Bool :=
  match blk.startTime, blk.endTime with
  | some s, some e => decide (s ≤ t) && decide (t < e)
  | _, _ => false

/-- The `isBlocked` check of the availability loop over the timed blocks
of the date. -/
def slotBlocked (timeBlock : List BlockedDate) (t : Nat) : Bool :=
  timeBlock.any (fun blk => blockCovers blk t)

/-- The availability `while` loop (`server/routes.ts`): starting at
`cur`, while `cur < endT`, stop if the slot end `cur + duration` would
pass `endT` (`isAfter(slotEnd, endTime) && !isEqual(slotEnd, endTime)`),
otherwise emit the slot and advance 30 minutes.  The loop's termination
measure `endT - cur` is passed explicitly as the structural argument
`fuel` so that the definition computes by `rfl`; `tileSlots` below
instantiates `fuel` with exactly that measure, which the 30-minute step
strictly decreases. -/
def tileLoop (existing : List Booking) (timeBlock : List BlockedDate)
    (serviceId duration endT : Nat) : Nat → Nat → List Slot
  | _cur, 0 => []
  | cur, fuel + 1 =>
    if cur < endT then
      if endT < cur + duration then []
      else
        { time := cur,
          available := !slotTaken existing serviceId cur && !slotBlocked timeBlock cur }
          :: tileLoop existing timeBlock serviceId duration endT (cur + 30) fuel
    else []

/-- The availability loop with its actual starting measure. -/
def tileSlots (existing : List Booking) (timeBlock : List BlockedDate)
    (serviceId duration endT cur : Nat) : List Slot :=
  tileLoop existing timeBlock serviceId duration endT cur (endT - cur)

/-- The timed (non-full-day) blocks the route collects for the date:
`db.select().from(blockedDates).where(eq(blockedDates.date, date))`
then `.filter(b => b.startTime && b.endTime)`. -/
def timeBlocksFor (db : DB) (date : YMD) : List BlockedDate :=
  (db.blockedDates.filter (fun b => b.date == date)).filter
    (fun b => b.startTime.isSome && b.endTime.isSome)

/-- The slot list computed by the availability handler for a date and a
service duration: short-circuit on `isDateBlocked`, then tile the
weekday's working window. -/
def computeSlots (db : DB) (date : YMD) (serviceId duration : Nat) : List Slot :=
  if isDateBlocked db date then []
  else
    tileSlots (getBookingsByDate db date) (timeBlocksFor db date)
      serviceId duration (windowEndMin date) (windowStartMin date)

/-- Responses of the booking endpoints, keeping the HTTP status class
and the exact message of the source. -/
inductive Resp where
  | badRequest (msg : String)
  | notFound (msg : String)
  | ok (b : Booking)
  | created (b : Booking)
  | okSlots (date : YMD) (slots : List Slot)
deriving DecidableEq, Repr

/-- The `GET /api/availability` handler. -/
def availabilityHandler (db : DB) (date : YMD) (serviceId : Nat) : Resp :=
  match getService db serviceId with
  | none => .notFound "Service not found"
  | some service => .okSlots date (computeSlots db date serviceId service.duration)

/-- The slot-conflict check of `POST /api/bookings` (`server/routes.ts`):
a conflict iff some booking on the target date has the same time, is
confirmed, and belongs to the same service. -/
def createConflict (db : DB) (date : YMD) (time serviceId : Nat) : Bool :=
  (getBookingsByDate db date).any
    (fun b => b.time == time && b.status == "confirmed" && b.serviceId == serviceId)

/-- The slot-conflict check of `PATCH /api/bookings/:id/reschedule`
(`server/routes.ts`): a conflict iff some booking on the target date has
the same time and is confirmed — no service condition. -/
def rescheduleConflict (db : DB) (date : YMD) (time : Nat) : Bool :=
  (getBookingsByDate db date).any
    (fun b => b.time == time && b.status == "confirmed")

/-- The shape-validated body of `POST /api/bookings`
(`insertBookingSchema`): `bookingId`, `token`, `status` and `id` are
generated or defaulted server-side. -/
structure CreateInput where
  serviceId : Nat
  date : YMD
  time : Nat
  customerName : String
  customerEmail : String
  customerPhone : String
  comments : Option String
deriving DecidableEq, Repr

/-- The row `storage.createBooking` inserts: the request fields plus the
generated token and booking code, the serial id assigned by the store,
and the schema's default `status = "confirmed"`. -/
def mkBooking (inp : CreateInput) (token bookingId : String) (newId : Nat) : Booking :=
  { id := newId, bookingId := bookingId, serviceId := inp.serviceId,
    date := inp.date, time := inp.time, customerName := inp.customerName,
    customerEmail := inp.customerEmail, customerPhone := inp.customerPhone,
    comments := inp.comments, status := "confirmed", token := token }

/-- The `POST /api/bookings` handler: conflict check, then insert.  The
generated random token and booking code and the serial id are passed as
parameters. -/
def createHandler (db : DB) (inp : CreateInput) (token bookingId : String)
    (newId : Nat) : Resp × DB :=
  if createConflict db inp.date inp.time inp.serviceId then
    (.badRequest "This time slot is already booked. Please select another time.", db)
  else
    let b := mkBooking inp token bookingId newId
    (.created b, { db with bookings := db.bookings ++ [b] })

/-- Character-wise lowercasing of a string, the per-code-point effect of
JS `String.prototype.toLowerCase` on the emails handled here; stated on
the character list so that concrete instances compute. -/
def lowerChars (s : String) : List Char := s.data.map Char.toLower

/-- `id.startsWith("AJIH-")`, stated on the character lists. -/
def startsWithAJIH (s : String) : Bool := "AJIH-".data.isPrefixOf s.data

/-- The numeric reading of a URL `:id` parameter: `Number(id)` produces
a serial id that can match a row only when the parameter is a plain
decimal numeral (a `NaN` or fractional coercion matches no row, and
serial ids assigned by the store start at 1). -/
def natParam? (s : String) : Option Nat :=
  if s.data ≠ [] && s.data.all Char.isDigit then
    some (s.data.foldl (fun acc c => 10 * acc + (c.toNat - 48)) 0)
  else none

/-- Resolution of the `:id` URL parameter of `GET /api/bookings/:id`:
a parameter starting with `AJIH-` is looked up as a booking code,
anything else is coerced with `Number(id)` and looked up as the serial
id. -/
def lookupByIdParam (db : DB) (idParam : String) : Option Booking :=
  if startsWithAJIH idParam then getBookingByBookingId db idParam
  else
    match natParam? idParam with
    | some n => getBookingById db n
    | none => none

/-- The `GET /api/bookings/:id` handler: requires an email, resolves the
id parameter, and treats an email that does not match case-insensitively
exactly like a missing booking. -/
def getBookingHandler (db : DB) (idParam email : String) : Resp :=
  if email == "" then .badRequest "Email required"
  else
    match lookupByIdParam db idParam with
    | none => .notFound "Booking not found"
    | some booking =>
      if lowerChars booking.customerEmail ≠ lowerChars email then .notFound "Booking not found"
      else .ok booking

/-- The `PATCH /api/bookings/:id/cancel` handler.  The route coerces the
URL parameter with `Number(id)`; only the numeric case can match a row,
so the id is modelled as a `Nat`.  A falsy (empty) email is rejected
before the update. -/
def cancelHandler (db : DB) (id : Nat) (email : String) : Resp × DB :=
  if email == "" then (.badRequest "Email required", db)
  else
    match cancelBooking db id email with
    | (none, db') => (.notFound "Booking not found", db')
    | (some b, db') => (.ok b, db')

/-- The `PATCH /api/bookings/:id/reschedule` handler.  The `!email ||
!newDate || !newTime` guard is modelled on the email only: the date and
time are well-formed non-empty strings on the wire, hence truthy. -/
def rescheduleHandler (db : DB) (id : Nat) (email : String)
    (newDate : YMD) (newTime : Nat) : Resp × DB :=
  if email == "" then (.badRequest "Missing required fields", db)
  else if rescheduleConflict db newDate newTime then
    (.badRequest "Time slot is already booked", db)
  else
    match rescheduleBooking db id email newDate newTime with
    | (none, db') => (.notFound "Booking not found", db')
    | (some b, db') => (.ok b, db')

/-- Whether a response is a 200 with a booking body. -/
def Resp.isOk : Resp → Bool
  | .ok _ => true
  | _ => false

/-- Whether a response is a 201 with the created booking. -/
def Resp.isCreated : Resp → Bool
  | .created _ => true
  | _ => false

/-- Progress of one in-flight `POST /api/bookings` request: not yet
dispatched, conflict check done (with its recorded result), or
responded. -/
inductive Phase where
  | pending
  | checked (conflict : Bool)
  | done (r : Resp)
deriving DecidableEq, Repr

/-- The generated data of one create request: its body and the
server-generated token, booking code and serial id. -/
structure CreateReq where
  inp : CreateInput
  token : String
  bookingId : String
  newId : Nat
deriving DecidableEq, Repr

/-- Joint state of the store and two concurrent create requests. -/
structure RaceState where
  db : DB
  r1 : Phase
  r2 : Phase
deriving DecidableEq, Repr

/-- The booking a create request inserts on success. -/
def reqBooking (q : CreateReq) : Booking :=
  mkBooking q.inp q.token q.bookingId q.newId

/-- Interleaving semantics of two concurrent `POST /api/bookings`
requests.  The handler performs two separate store operations — the
conflict `SELECT` and the `INSERT` — with no transaction and no
uniqueness constraint on `(date, time, serviceId, status)` (the schema's
only unique columns are `booking_id` and `token`), so the two steps of
each request may interleave with the other request's steps. -/
inductive RaceStep (q1 q2 : CreateReq) : RaceState → RaceState → Prop where
  | check1 (s : RaceState) (h : s.r1 = .pending) :
      RaceStep q1 q2 s
        { s with r1 := .checked (createConflict s.db q1.inp.date q1.inp.time q1.inp.serviceId) }
  | check2 (s : RaceState) (h : s.r2 = .pending) :
      RaceStep q1 q2 s
        { s with r2 := .checked (createConflict s.db q2.inp.date q2.inp.time q2.inp.serviceId) }
  | commit1 (s : RaceState) (h : s.r1 = .checked false) :
      RaceStep q1 q2 s
        { db := { s.db with bookings := s.db.bookings ++ [reqBooking q1] },
          r1 := .done (.created (reqBooking q1)), r2 := s.r2 }
  | commit2 (s : RaceState) (h : s.r2 = .checked false) :
      RaceStep q1 q2 s
        { db := { s.db with bookings := s.db.bookings ++ [reqBooking q2] },
          r1 := s.r1, r2 := .done (.created (reqBooking q2)) }
  | reject1 (s : RaceState) (h : s.r1 = .checked true) :
      RaceStep q1 q2 s
        { s with r1 := .done (.badRequest "This time slot is already booked. Please select another time.") }
  | reject2 (s : RaceState) (h : s.r2 = .checked true) :
      RaceStep q1 q2 s
        { s with r2 := .done (.badRequest "This time slot is already booked. Please select another time.") }

/-- Reachability under any interleaving of the two requests' steps. -/
def Reaches (q1 q2 : CreateReq) : RaceState → RaceState → Prop :=
  Relation.ReflTransGen (RaceStep q1 q2)

/-- Number of confirmed bookings of a service stored at a date and time. -/
def confirmedCountAt (db : DB) (date : YMD) (time serviceId : Nat) : Nat :=
  (db.bookings.filter (fun b =>
    b.date == date && b.time == time && b.serviceId == serviceId &&
      b.status == "confirmed")).length

/-! ### Helper definitions and lemmas for the theorems -/

/-- The times the availability loop visits and keeps: the 30-minute grid
of the working window restricted to slots whose end fits; same loop as
`tileLoop`, forgetting the availability flags. -/
def timesLoop (duration endT : Nat) : Nat → Nat → List Nat
  | _cur, 0 => []
  | cur, fuel + 1 =>
    if cur < endT then
      if endT < cur + duration then []
      else cur :: timesLoop duration endT (cur + 30) fuel
    else []

/-- The tiled slot-start times of a window `[cur, endT)` for a service
duration. -/
def tiledTimes (duration endT cur : Nat) : List Nat :=
  timesLoop duration endT cur (endT - cur)

theorem tileLoop_eq_map (existing : List Booking) (timeBlock : List BlockedDate)
    (serviceId duration endT : Nat) :
    ∀ fuel cur, tileLoop existing timeBlock serviceId duration endT cur fuel =
      (timesLoop duration endT cur fuel).map
        (fun t => ⟨t, !slotTaken existing serviceId t && !slotBlocked timeBlock t⟩) := by
  intro fuel
  induction fuel with
  | zero => intro cur; rfl
  | succ n ih =>
    intro cur
    simp only [tileLoop, timesLoop]
    by_cases h : cur < endT
    · by_cases h2 : endT < cur + duration
      · simp [h, h2]
      · simp [h, h2, ih]
    · simp [h]

theorem tileSlots_eq_map (existing : List Booking) (timeBlock : List BlockedDate)
    (serviceId duration endT cur : Nat) :
    tileSlots existing timeBlock serviceId duration endT cur =
      (tiledTimes duration endT cur).map
        (fun t => ⟨t, !slotTaken existing serviceId t && !slotBlocked timeBlock t⟩) :=
  tileLoop_eq_map existing timeBlock serviceId duration endT (endT - cur) cur

theorem isDateBlocked_eq_false (db : DB) (date : YMD) :
    isDateBlocked db date = false := by
  simp [isDateBlocked]

theorem blockCovers_of_not_timed (blk : BlockedDate) (t : Nat)
    (h : (blk.startTime.isSome && blk.endTime.isSome) = false) :
    blockCovers blk t = false := by
  obtain ⟨i, d, st, et, r⟩ := blk
  cases st <;> cases et <;> simp_all [blockCovers]

theorem slotBlocked_filter (bl : List BlockedDate) (p : BlockedDate → Bool) (t : Nat) :
    slotBlocked ((bl.filter p).filter
        (fun b => b.startTime.isSome && b.endTime.isSome)) t =
      bl.any (fun b => p b && blockCovers b t) := by
  induction bl with
  | nil => rfl
  | cons x xs ih =>
    by_cases hp : p x
    · by_cases hb : (x.startTime.isSome && x.endTime.isSome) = true
      · simp only [List.filter_cons, hp, if_true, hb, List.any_cons, slotBlocked,
          Bool.true_and] at ih ⊢
        rw [ih]
      · have hc := blockCovers_of_not_timed x t (by simpa using hb)
        simp only [List.filter_cons, hp, if_true, hb, List.any_cons, slotBlocked,
          if_false, hc] at ih ⊢
        simpa using ih
    · have hp' : p x = false := by simpa using hp
      simp only [List.filter_cons, hp', List.any_cons, slotBlocked, if_false] at ih ⊢
      simpa [hp'] using ih

theorem slotBlocked_timeBlocksFor (db : DB) (date : YMD) (t : Nat) :
    slotBlocked (timeBlocksFor db date) t =
      db.blockedDates.any (fun blk => blk.date == date && blockCovers blk t) := by
  simpa only [timeBlocksFor] using
    slotBlocked_filter db.blockedDates (fun b => b.date == date) t

/-! ### C1 -/

/-- C1: with no bookings on the date and only timed (start and end both
present) blocked ranges for it, the availability computation emits
exactly the tiled slot times of the date's working window, marking a
slot unavailable precisely when some blocked range of that date covers
it (`blockStart ≤ t < blockEnd`) and available otherwise; in particular
a 16:00-16:30 block on a 16:00-18:00 day leaves 16:30, 17:00 and 17:30
available (see the witness). -/
theorem timed_block_hides_only_its_range
    (db : DB) (date : YMD) (serviceId : Nat) (service : Service)
    (hs : getService db serviceId = some service)
    (hnb : getBookingsByDate db date = [])
    (_hpb : ∀ blk ∈ db.blockedDates, blk.date = date →
      (blk.startTime.isSome ∧ blk.endTime.isSome)) :
    availabilityHandler db date serviceId =
      .okSlots date
        ((tiledTimes service.duration (windowEndMin date) (windowStartMin date)).map
          (fun t =>
            ⟨t, !db.blockedDates.any (fun blk => blk.date == date && blockCovers blk t)⟩)) := by
  simp only [availabilityHandler, hs]
  simp only [computeSlots, isDateBlocked_eq_false, Bool.false_eq_true, if_false]
  rw [hnb, tileSlots_eq_map]
  congr 1
  apply List.map_congr_left
  intro t _
  have htaken : slotTaken [] serviceId t = false := rfl
  rw [htaken, slotBlocked_timeBlocksFor]
  simp

/-- Concrete C1 scenario: Monday 2025-01-06 (window 16:00-18:00), a
single timed block 16:00-16:30, no bookings, 30-minute service: slot
960 (= 16:00) is returned unavailable and 990, 1020, 1050 (= 16:30,
17:00, 17:30) available. -/
theorem timed_block_hides_only_its_range_witness :
    availabilityHandler
        ⟨[⟨1, "Cupping Therapy", 30, "d", "p"⟩], [],
          [⟨1, ⟨2025, 1, 6⟩, some 960, some 990, some "busy"⟩]⟩
        ⟨2025, 1, 6⟩ 1 =
      .okSlots ⟨2025, 1, 6⟩ [⟨960, false⟩, ⟨990, true⟩, ⟨1020, true⟩, ⟨1050, true⟩] :=
  (timed_block_hides_only_its_range
      ⟨[⟨1, "Cupping Therapy", 30, "d", "p"⟩], [],
        [⟨1, ⟨2025, 1, 6⟩, some 960, some 990, some "busy"⟩]⟩
      ⟨2025, 1, 6⟩ 1 ⟨1, "Cupping Therapy", 30, "d", "p"⟩
      rfl rfl (by decide)).trans (by decide)

/-! ### C3 -/

theorem tileLoop_time_bound (existing : List Booking) (timeBlock : List BlockedDate)
    (serviceId duration endT : Nat) :
    ∀ fuel cur s, s ∈ tileLoop existing timeBlock serviceId duration endT cur fuel →
      s.time + duration ≤ endT := by
  intro fuel
  induction fuel with
  | zero => intro cur s h; simp [tileLoop] at h
  | succ n ih =>
    intro cur s h
    simp only [tileLoop] at h
    by_cases h1 : cur < endT
    · rw [if_pos h1] at h
      by_cases h2 : endT < cur + duration
      · rw [if_pos h2] at h; simp at h
      · rw [if_neg h2] at h
        rcases List.mem_cons.mp h with h3 | h3
        · subst h3
          show cur + duration ≤ endT
          omega
        · exact ih (cur + 30) s h3
    · rw [if_neg h1] at h; simp at h

/-- C3: every slot emitted by the availability computation ends at or
before the working-window end: `t + duration ≤ windowEndMin date`, for
every database state, date, service scoping and duration (tiling breaks
at the first 30-minute step whose slot end would strictly exceed the
window end, so no trailing partial slot is offered). -/
theorem slot_fits_window (db : DB) (date : YMD) (serviceId duration : Nat)
    (s : Slot) (h : s ∈ computeSlots db date serviceId duration) :
    s.time + duration ≤ windowEndMin date := by
  rw [computeSlots] at h
  by_cases hb : isDateBlocked db date
  · rw [if_pos hb] at h; simp at h
  · rw [if_neg hb] at h
    exact tileLoop_time_bound _ _ _ _ _ _ _ s h

/-- Concrete C3 scenario: a 45-minute service in the Monday 16:00-18:00
window yields exactly the starts 16:00, 16:45-overlapping grid points
16:00, 16:30, 17:00 (no 17:45 start, no slot past 18:00), and the
theorem bounds the emitted slot 17:00 by `17:00 + 45min ≤ 18:00`. -/
theorem slot_fits_window_witness :
    (⟨1020, true⟩ : Slot) ∈
        computeSlots ⟨[⟨2, "General Acupuncture", 45, "d", "p"⟩], [], []⟩ ⟨2025, 1, 6⟩ 2 45 ∧
      1020 + 45 ≤ windowEndMin ⟨2025, 1, 6⟩ ∧
      computeSlots ⟨[⟨2, "General Acupuncture", 45, "d", "p"⟩], [], []⟩ ⟨2025, 1, 6⟩ 2 45 =
        [⟨960, true⟩, ⟨990, true⟩, ⟨1020, true⟩] :=
  ⟨by decide,
   slot_fits_window ⟨[⟨2, "General Acupuncture", 45, "d", "p"⟩], [], []⟩ ⟨2025, 1, 6⟩ 2 45
     ⟨1020, true⟩ (by decide),
   by decide⟩

/-! ### C2 -/

/-- C2: the full-day-block short circuit never fires.  On Monday
2025-01-06 with a full-day `BlockedRange` (both `startTime` and
`endTime` absent), no bookings and a 30-minute service, the claim
requires the availability computation to return an empty slot sequence;
instead `isDateBlocked`'s drizzle condition compares the column objects
to `null` with JS `===` (always `false`) so no row ever matches, the
full-day block is also dropped by the timed-block filter, and the
handler returns the whole 16:00-18:00 grid as available. -/
theorem full_day_block_is_ignored :
    (∀ db date, isDateBlocked db date = false) ∧
      (let db : DB := ⟨[⟨1, "Cupping Therapy", 30, "d", "p"⟩], [],
        [⟨1, ⟨2025, 1, 6⟩, none, none, some "leave"⟩]⟩
      (db.blockedDates.any
          (fun b => b.date == ⟨2025, 1, 6⟩ && b.startTime == none && b.endTime == none)) = true ∧
        availabilityHandler db ⟨2025, 1, 6⟩ 1 ≠ .okSlots ⟨2025, 1, 6⟩ [] ∧
        availabilityHandler db ⟨2025, 1, 6⟩ 1 =
          .okSlots ⟨2025, 1, 6⟩ [⟨960, true⟩, ⟨990, true⟩, ⟨1020, true⟩, ⟨1050, true⟩]) :=
  ⟨isDateBlocked_eq_false, by decide, by decide, by decide⟩

/-! ### C4 -/

/-- C4: rescheduling any booking A (with a well-formed, hence non-empty,
requester email) onto a target date and time already held by a confirmed
booking B is rejected with the 400-class conflict response `"Time slot
is already booked"`, and the stored state — in particular A's date, time
and status — is returned unchanged. -/
theorem reschedule_conflict_rejected_unchanged
    (db : DB) (A B : Booking) (newDate : YMD) (newTime : Nat)
    (_hA : A ∈ db.bookings) (hAe : A.customerEmail ≠ "")
    (hB : B ∈ db.bookings) (hBdate : B.date = newDate)
    (hBtime : B.time = newTime) (hBst : B.status = "confirmed") :
    rescheduleHandler db A.id A.customerEmail newDate newTime =
      (.badRequest "Time slot is already booked", db) := by
  have hconf : rescheduleConflict db newDate newTime = true := by
    apply List.any_eq_true.mpr
    exact ⟨B, List.mem_filter.mpr ⟨hB, by simp [hBdate]⟩, by simp [hBtime, hBst]⟩
  simp [rescheduleHandler, hAe, hconf]

/-- Concrete C4 scenario: booking 1 (alice) rescheduled onto
(2025-01-07, 16:30), a slot held by confirmed booking 2 (bob): 400
conflict, state unchanged. -/
theorem reschedule_conflict_rejected_unchanged_witness :
    rescheduleHandler
        ⟨[], [⟨1, "AJIH-20250106-AAAA", 1, ⟨2025, 1, 6⟩, 960, "Alice", "alice@example.com",
                "111", none, "confirmed", "t1"⟩,
              ⟨2, "AJIH-20250107-BBBB", 1, ⟨2025, 1, 7⟩, 990, "Bob", "bob@example.com",
                "222", none, "confirmed", "t2"⟩], []⟩
        1 "alice@example.com" ⟨2025, 1, 7⟩ 990 =
      (.badRequest "Time slot is already booked",
        ⟨[], [⟨1, "AJIH-20250106-AAAA", 1, ⟨2025, 1, 6⟩, 960, "Alice", "alice@example.com",
                "111", none, "confirmed", "t1"⟩,
              ⟨2, "AJIH-20250107-BBBB", 1, ⟨2025, 1, 7⟩, 990, "Bob", "bob@example.com",
                "222", none, "confirmed", "t2"⟩], []⟩) :=
  reschedule_conflict_rejected_unchanged
    ⟨[], [⟨1, "AJIH-20250106-AAAA", 1, ⟨2025, 1, 6⟩, 960, "Alice", "alice@example.com",
            "111", none, "confirmed", "t1"⟩,
          ⟨2, "AJIH-20250107-BBBB", 1, ⟨2025, 1, 7⟩, 990, "Bob", "bob@example.com",
            "222", none, "confirmed", "t2"⟩], []⟩
    ⟨1, "AJIH-20250106-AAAA", 1, ⟨2025, 1, 6⟩, 960, "Alice", "alice@example.com",
      "111", none, "confirmed", "t1"⟩
    ⟨2, "AJIH-20250107-BBBB", 1, ⟨2025, 1, 7⟩, 990, "Bob", "bob@example.com",
      "222", none, "confirmed", "t2"⟩
    ⟨2025, 1, 7⟩ 990 (by decide) (by decide) (by decide) rfl rfl rfl

/-! ### C5 -/

/-- C5 counterexample: the two conflict checks differ.  With a single
confirmed booking of service 1 at (2025-01-07, 16:00), rescheduling a
booking of service 2 onto that slot declares a conflict while creating a
service-2 booking there does not: the reschedule check ignores the
service, the creation check is service-scoped. -/
theorem reschedule_check_differs_from_create_check :
    rescheduleConflict
        ⟨[], [⟨1, "AJIH-20250107-AAAA", 1, ⟨2025, 1, 7⟩, 960, "Bob", "bob@example.com",
                "222", none, "confirmed", "t1"⟩], []⟩ ⟨2025, 1, 7⟩ 960 ≠
      createConflict
        ⟨[], [⟨1, "AJIH-20250107-AAAA", 1, ⟨2025, 1, 7⟩, 960, "Bob", "bob@example.com",
                "222", none, "confirmed", "t1"⟩], []⟩ ⟨2025, 1, 7⟩ 960 2 := by
  decide

/-- C5 amended: the reschedule conflict check is the creation check with
the service condition dropped — it declares a conflict exactly when some
confirmed booking of any service holds the target date and time, so
every creation conflict is a reschedule conflict (but not conversely,
see the counterexample). -/
theorem reschedule_check_global_superset (db : DB) (date : YMD) (time serviceId : Nat) :
    (createConflict db date time serviceId = true →
      rescheduleConflict db date time = true) ∧
    (rescheduleConflict db date time = true ↔
      ∃ b ∈ db.bookings, b.date = date ∧ b.time = time ∧ b.status = "confirmed") := by
  constructor
  · intro h
    rcases List.any_eq_true.mp h with ⟨b, hmem, hp⟩
    apply List.any_eq_true.mpr
    refine ⟨b, hmem, ?_⟩
    simp only [Bool.and_eq_true] at hp ⊢
    exact ⟨hp.1.1, hp.1.2⟩
  · constructor
    · intro h
      rcases List.any_eq_true.mp h with ⟨b, hmem, hp⟩
      rcases List.mem_filter.mp hmem with ⟨hb, hdate⟩
      simp only [Bool.and_eq_true, beq_iff_eq] at hp hdate
      exact ⟨b, hb, hdate, hp.1, hp.2⟩
    · rintro ⟨b, hb, hdate, htime, hst⟩
      apply List.any_eq_true.mpr
      exact ⟨b, List.mem_filter.mpr ⟨hb, by simp [hdate]⟩, by simp [htime, hst]⟩

/-- Witness for the amended C5: at the counterexample state the
service-2 creation at the held slot is conflict-free while the
reschedule check still reports the slot taken, through the
characterization. -/
theorem reschedule_check_global_superset_witness :
    rescheduleConflict
        ⟨[], [⟨1, "AJIH-20250107-AAAA", 1, ⟨2025, 1, 7⟩, 960, "Bob", "bob@example.com",
                "222", none, "confirmed", "t1"⟩], []⟩ ⟨2025, 1, 7⟩ 960 = true :=
  (reschedule_check_global_superset
      ⟨[], [⟨1, "AJIH-20250107-AAAA", 1, ⟨2025, 1, 7⟩, 960, "Bob", "bob@example.com",
              "222", none, "confirmed", "t1"⟩], []⟩ ⟨2025, 1, 7⟩ 960 1).1 (by decide)

/-! ### C6 -/

theorem map_id_on {α : Type} (l : List α) (f : α → α) (h : ∀ x ∈ l, f x = x) :
    l.map f = l := by
  induction l with
  | nil => rfl
  | cons x xs ih =>
    rw [List.map_cons, h x (List.mem_cons_self x xs),
      ih (fun y hy => h y (List.mem_cons_of_mem x hy))]

/-- C6 counterexample: cancellation is not case-insensitive.  The stored
email `Alice@Example.com` and the requester email `alice@example.com`
match case-insensitively, so the claim requires the cancellation to
succeed; the handler instead matches the email with exact SQL string
equality and answers 404 `"Booking not found"`, leaving the booking
confirmed. -/
theorem cancel_case_variant_rejected :
    lowerChars "Alice@Example.com" = lowerChars "alice@example.com" ∧
      cancelHandler
          ⟨[], [⟨7, "AJIH-20250106-AAAA", 1, ⟨2025, 1, 6⟩, 960, "Alice", "Alice@Example.com",
                  "111", none, "confirmed", "t1"⟩], []⟩ 7 "alice@example.com" =
        (.notFound "Booking not found",
          ⟨[], [⟨7, "AJIH-20250106-AAAA", 1, ⟨2025, 1, 6⟩, 960, "Alice", "Alice@Example.com",
                  "111", none, "confirmed", "t1"⟩], []⟩) := by
  decide

/-- C6 amended: cancellation succeeds exactly when the (non-empty)
requester email equals the booking's stored email exactly — the match is
case-sensitive; any other email, case variants of the stored one
included, yields the 404 `"Booking not found"` response with the store
unchanged. -/
theorem cancel_requires_exact_email (db : DB) (id : Nat) (email : String)
    (h : email ≠ "") :
    ((∃ b ∈ db.bookings, b.id = id ∧ b.customerEmail = email) ↔
      Resp.isOk (cancelHandler db id email).1 = true) ∧
    ((∀ b ∈ db.bookings, ¬(b.id = id ∧ b.customerEmail = email)) →
      cancelHandler db id email = (.notFound "Booking not found", db)) := by
  have hne : (email == "") = false := beq_eq_false_iff_ne.mpr h
  constructor
  · constructor
    · rintro ⟨b, hb, hid, hem⟩
      have hsome : (db.bookings.find? fun b => b.id == id && b.customerEmail == email).isSome :=
        List.find?_isSome.mpr ⟨b, hb, by simp [hid, hem]⟩
      rcases Option.isSome_iff_exists.mp hsome with ⟨y, hy⟩
      simp [cancelHandler, hne, cancelBooking, hy, Resp.isOk]
    · intro hok
      by_contra hnone
      push_neg at hnone
      have hfind : db.bookings.find? (fun b => b.id == id && b.customerEmail == email) = none := by
        apply List.find?_eq_none.mpr
        intro x hx hpx
        simp only [Bool.and_eq_true, beq_iff_eq] at hpx
        exact (hnone x hx hpx.1) hpx.2
      simp [cancelHandler, hne, cancelBooking, hfind, Resp.isOk] at hok
  · intro hall
    have hfind : db.bookings.find? (fun b => b.id == id && b.customerEmail == email) = none := by
      apply List.find?_eq_none.mpr
      intro x hx hpx
      simp only [Bool.and_eq_true, beq_iff_eq] at hpx
      exact hall x hx hpx
    have hmap : db.bookings.map
        (fun b => if b.id == id && b.customerEmail == email then
          { b with status := "cancelled" } else b) = db.bookings := by
      apply map_id_on
      intro x hx
      have hpx : (x.id == id && x.customerEmail == email) = false := by
        by_contra hcon
        have := Bool.of_not_eq_false hcon
        simp only [Bool.and_eq_true, beq_iff_eq] at this
        exact hall x hx this
      rw [hpx]
      simp
    have hcb : cancelBooking db id email = (none, db) := by
      simp only [cancelBooking]
      rw [hfind, hmap, Option.map_none']
    simp [cancelHandler, hne, hcb]

/-- Witness for the amended C6: cancelling id 99 (no matching row) is a
404 with the store unchanged, through the theorem's second half. -/
theorem cancel_requires_exact_email_witness :
    cancelHandler
        ⟨[], [⟨7, "AJIH-20250106-AAAA", 1, ⟨2025, 1, 6⟩, 960, "Alice", "Alice@Example.com",
                "111", none, "confirmed", "t1"⟩], []⟩ 99 "alice@example.com" =
      (.notFound "Booking not found",
        ⟨[], [⟨7, "AJIH-20250106-AAAA", 1, ⟨2025, 1, 6⟩, 960, "Alice", "Alice@Example.com",
                "111", none, "confirmed", "t1"⟩], []⟩) :=
  (cancel_requires_exact_email
      ⟨[], [⟨7, "AJIH-20250106-AAAA", 1, ⟨2025, 1, 6⟩, 960, "Alice", "Alice@Example.com",
              "111", none, "confirmed", "t1"⟩], []⟩ 99 "alice@example.com"
      (by decide)).2 (by decide)

/-! ### C7 -/

/-- C7: looking up an existing booking with an email that does not match
case-insensitively produces exactly the same response as looking up an
id parameter that resolves to no booking: both are the 404
`"Booking not found"`, indistinguishable to the caller. -/
theorem wrong_email_same_as_missing (db : DB) (b : Booking) (email idP idQ : String)
    (he : email ≠ "")
    (hP : lookupByIdParam db idP = some b)
    (hmm : lowerChars b.customerEmail ≠ lowerChars email)
    (hQ : lookupByIdParam db idQ = none) :
    getBookingHandler db idP email = getBookingHandler db idQ email ∧
      getBookingHandler db idP email = .notFound "Booking not found" := by
  have hne : (email == "") = false := beq_eq_false_iff_ne.mpr he
  constructor <;> simp [getBookingHandler, hne, hP, hQ, hmm]

/-- Concrete C7 scenario: booking 7 belongs to `Alice@Example.com`;
querying it as id `"7"` with `eve@example.com` and querying the
nonexistent id `"999"` return the identical 404 response. -/
theorem wrong_email_same_as_missing_witness :
    getBookingHandler
        ⟨[], [⟨7, "AJIH-20250106-AAAA", 1, ⟨2025, 1, 6⟩, 960, "Alice", "Alice@Example.com",
                "111", none, "confirmed", "t1"⟩], []⟩ "7" "eve@example.com" =
      getBookingHandler
        ⟨[], [⟨7, "AJIH-20250106-AAAA", 1, ⟨2025, 1, 6⟩, 960, "Alice", "Alice@Example.com",
                "111", none, "confirmed", "t1"⟩], []⟩ "999" "eve@example.com" ∧
    getBookingHandler
        ⟨[], [⟨7, "AJIH-20250106-AAAA", 1, ⟨2025, 1, 6⟩, 960, "Alice", "Alice@Example.com",
                "111", none, "confirmed", "t1"⟩], []⟩ "7" "eve@example.com" =
      .notFound "Booking not found" :=
  wrong_email_same_as_missing
    ⟨[], [⟨7, "AJIH-20250106-AAAA", 1, ⟨2025, 1, 6⟩, 960, "Alice", "Alice@Example.com",
            "111", none, "confirmed", "t1"⟩], []⟩
    ⟨7, "AJIH-20250106-AAAA", 1, ⟨2025, 1, 6⟩, 960, "Alice", "Alice@Example.com",
      "111", none, "confirmed", "t1"⟩
    "eve@example.com" "7" "999" (by decide) (by decide) (by decide) (by decide)

/-! ### C8 -/

/-- First request of the C8 race: service 1 at (2025-01-06, 16:00). -/
def raceReq1 : CreateReq :=
  ⟨⟨1, ⟨2025, 1, 6⟩, 960, "Ann", "ann@example.com", "111", none⟩,
    "tokA", "AJIH-20250106-AAAA", 1⟩

/-- Second request of the C8 race: the same service, date and time. -/
def raceReq2 : CreateReq :=
  ⟨⟨1, ⟨2025, 1, 6⟩, 960, "Ben", "ben@example.com", "222", none⟩,
    "tokB", "AJIH-20250106-BBBB", 2⟩

/-- Initial store of the C8 race: one 30-minute service, no bookings,
no blocks. -/
def raceInitDB : DB := ⟨[⟨1, "Cupping Therapy", 30, "d", "p"⟩], [], []⟩

/-- C8: the conflict check and the insert are not atomic.  Under the
interleaving `check₁; check₂; insert₁; insert₂` — possible because the
handler runs an unguarded read-then-write and the `bookings` schema has
unique constraints only on `booking_id` and `token` — both requests see
no conflict, both commit, and the reachable final state holds two
confirmed bookings of the same service at the same date and time,
violating the at-most-one invariant the claim asserts. -/
theorem create_race_double_books :
    ∃ s : RaceState,
      Reaches raceReq1 raceReq2 ⟨raceInitDB, .pending, .pending⟩ s ∧
        s.r1 = .done (.created (reqBooking raceReq1)) ∧
        s.r2 = .done (.created (reqBooking raceReq2)) ∧
        confirmedCountAt s.db ⟨2025, 1, 6⟩ 960 1 = 2 := by
  refine ⟨⟨⟨raceInitDB.services, [reqBooking raceReq1, reqBooking raceReq2], []⟩,
    .done (.created (reqBooking raceReq1)), .done (.created (reqBooking raceReq2))⟩,
    ?_, rfl, rfl, by decide⟩
  refine Relation.ReflTransGen.head (RaceStep.check1 _ rfl) ?_
  refine Relation.ReflTransGen.head (RaceStep.check2 _ rfl) ?_
  refine Relation.ReflTransGen.head (RaceStep.commit1 _ rfl) ?_
  exact Relation.ReflTransGen.head (RaceStep.commit2 _ rfl) Relation.ReflTransGen.refl

/-! ### C9 -/

/-- C9: neither write path consults the working window or the blocked
ranges.  For every store — its blocked ranges arbitrary, so in
particular a full-day block on the target date or a timed block covering
the target time — a create with no conflicting confirmed booking of its
service commits (201 with the inserted row) and a reschedule with a
non-empty owner-matching email and no confirmed booking at the target
returns 200; the only write-time rejection beyond shape validation is
the booking-conflict check. -/
theorem write_path_skips_availability_checks
    (db : DB) (inp : CreateInput) (token bookingId : String) (newId : Nat)
    (id : Nat) (email : String) (newDate : YMD) (newTime : Nat) (A : Booking)
    (hc : createConflict db inp.date inp.time inp.serviceId = false)
    (hne : email ≠ "") (hr : rescheduleConflict db newDate newTime = false)
    (hA : A ∈ db.bookings) (hid : A.id = id) (hem : A.customerEmail = email) :
    (createHandler db inp token bookingId newId).1 =
        .created (mkBooking inp token bookingId newId) ∧
      Resp.isOk (rescheduleHandler db id email newDate newTime).1 = true := by
  constructor
  · simp [createHandler, hc]
  · have hne' : (email == "") = false := beq_eq_false_iff_ne.mpr hne
    have hsome : (db.bookings.find? fun b => b.id == id && b.customerEmail == email).isSome :=
      List.find?_isSome.mpr ⟨A, hA, by simp [hid, hem]⟩
    rcases Option.isSome_iff_exists.mp hsome with ⟨y, hy⟩
    simp [rescheduleHandler, hne', hr, rescheduleBooking, hy, Resp.isOk]

/-- Store for the C9 witness: 2025-01-08 carries a full-day block and a
timed block 10:00-12:00, and the only booking is Dora's on 2025-01-06. -/
def blockedDB : DB :=
  ⟨[⟨1, "Cupping Therapy", 30, "d", "p"⟩],
    [⟨4, "AJIH-20250106-DDDD", 1, ⟨2025, 1, 6⟩, 960, "Dora", "dora@example.com",
      "444", none, "confirmed", "t4"⟩],
    [⟨1, ⟨2025, 1, 8⟩, none, none, some "leave"⟩,
     ⟨2, ⟨2025, 1, 8⟩, some 600, some 720, some "errand"⟩]⟩

/-- Concrete C9 scenario: on the fully blocked date 2025-01-08, a create
at 11:00 (inside the timed block and outside every working window) is
accepted, and Dora's booking reschedules to 11:30 on that date equally
well. -/
theorem write_path_skips_availability_checks_witness :
    ((blockedDB.blockedDates.any fun b => b.date == ⟨2025, 1, 8⟩ &&
        b.startTime == none && b.endTime == none) = true) ∧
      (createHandler blockedDB ⟨1, ⟨2025, 1, 8⟩, 660, "Eve", "eve@example.com", "555", none⟩
            "tokE" "AJIH-20250108-EEEE" 9).1 =
        .created (mkBooking ⟨1, ⟨2025, 1, 8⟩, 660, "Eve", "eve@example.com", "555", none⟩
          "tokE" "AJIH-20250108-EEEE" 9) ∧
      Resp.isOk (rescheduleHandler blockedDB 4 "dora@example.com" ⟨2025, 1, 8⟩ 690).1 = true :=
  ⟨by decide,
    (write_path_skips_availability_checks blockedDB
        ⟨1, ⟨2025, 1, 8⟩, 660, "Eve", "eve@example.com", "555", none⟩
        "tokE" "AJIH-20250108-EEEE" 9 4 "dora@example.com" ⟨2025, 1, 8⟩ 690
        ⟨4, "AJIH-20250106-DDDD", 1, ⟨2025, 1, 6⟩, 960, "Dora", "dora@example.com",
          "444", none, "confirmed", "t4"⟩
        (by decide) (by decide) (by decide) (by decide) rfl rfl).1,
    (write_path_skips_availability_checks blockedDB
        ⟨1, ⟨2025, 1, 8⟩, 660, "Eve", "eve@example.com", "555", none⟩
        "tokE" "AJIH-20250108-EEEE" 9 4 "dora@example.com" ⟨2025, 1, 8⟩ 690
        ⟨4, "AJIH-20250106-DDDD", 1, ⟨2025, 1, 6⟩, 960, "Dora", "dora@example.com",
          "444", none, "confirmed", "t4"⟩
        (by decide) (by decide) (by decide) (by decide) rfl rfl).2⟩

/-! ### C10 -/

/-- C10: double cancel is a no-op success.  For a booking whose status
is already `"cancelled"`, a further cancel with the matching (non-empty)
email returns the booking with 200, writes `status = "cancelled"` again,
and leaves the stored state exactly as it was after the first
cancellation.  The uniqueness hypothesis reflects that `id` is the
serial primary key. -/
theorem double_cancel_noop
    (db : DB) (b : Booking) (id : Nat) (email : String)
    (hb : b ∈ db.bookings) (hid : b.id = id) (hem : b.customerEmail = email)
    (hne : email ≠ "") (hst : b.status = "cancelled")
    (huniq : ∀ b' ∈ db.bookings, b'.id = id → b'.customerEmail = email → b' = b) :
    cancelHandler db id email = (.ok b, db) := by
  have hne' : (email == "") = false := beq_eq_false_iff_ne.mpr hne
  have heta : ({ b with status := "cancelled" } : Booking) = b := by
    obtain ⟨i, bid, sid, d, t, n, e, p, c, st, tk⟩ := b
    simp only at hst
    rw [hst]
  have hsome : (db.bookings.find? fun x => x.id == id && x.customerEmail == email).isSome :=
    List.find?_isSome.mpr ⟨b, hb, by simp [hid, hem]⟩
  rcases Option.isSome_iff_exists.mp hsome with ⟨y, hy⟩
  have hyp := List.find?_some hy
  simp only [Bool.and_eq_true, beq_iff_eq] at hyp
  have hyb : y = b := huniq y (List.mem_of_find?_eq_some hy) hyp.1 hyp.2
  subst hyb
  have hmap : db.bookings.map
      (fun x => if x.id == id && x.customerEmail == email then
        { x with status := "cancelled" } else x) = db.bookings := by
    apply map_id_on
    intro x hx
    by_cases hpx : (x.id == id && x.customerEmail == email) = true
    · have hpx' := hpx
      simp only [Bool.and_eq_true, beq_iff_eq] at hpx'
      have hxy : x = y := huniq x hx hpx'.1 hpx'.2
      rw [hpx, if_pos rfl, hxy, heta]
    · rw [Bool.of_not_eq_true hpx]
      simp
  have hcb : cancelBooking db id email = (some y, db) := by
    simp only [cancelBooking]
    rw [hy, hmap, Option.map_some', heta]
  simp [cancelHandler, hne', hcb, heta]

/-- Concrete C10 scenario: Carol's booking 3 is already cancelled;
cancelling it again with her email answers 200 with the unchanged
record and leaves the store identical. -/
theorem double_cancel_noop_witness :
    cancelHandler
        ⟨[], [⟨3, "AJIH-20250110-CCCC", 1, ⟨2025, 1, 10⟩, 990, "Carol", "carol@example.com",
                "333", none, "cancelled", "t3"⟩], []⟩ 3 "carol@example.com" =
      (.ok ⟨3, "AJIH-20250110-CCCC", 1, ⟨2025, 1, 10⟩, 990, "Carol", "carol@example.com",
          "333", none, "cancelled", "t3"⟩,
        ⟨[], [⟨3, "AJIH-20250110-CCCC", 1, ⟨2025, 1, 10⟩, 990, "Carol", "carol@example.com",
                "333", none, "cancelled", "t3"⟩], []⟩) :=
  double_cancel_noop
    ⟨[], [⟨3, "AJIH-20250110-CCCC", 1, ⟨2025, 1, 10⟩, 990, "Carol", "carol@example.com",
            "333", none, "cancelled", "t3"⟩], []⟩
    ⟨3, "AJIH-20250110-CCCC", 1, ⟨2025, 1, 10⟩, 990, "Carol", "carol@example.com",
      "333", none, "cancelled", "t3"⟩
    3 "carol@example.com" (by decide) rfl rfl (by decide) rfl (by decide)

end AjInstaHeal
